import Mathlib

/-!
Verification of the predicate-combinator engine in `Methanal/Preds.js`,
together with the parts of `Methanal.Util` it consumes (the unseeded fold
primitive, `Time` and `TimeDelta`), which are modelled from the
specification and pinned by the unit tests in
`Methanal/Tests/TestUtil.js`.

JavaScript values are embedded by the inductive `JSValue`. Numbers are
modelled as integers: every numeric constant occurring in the predicates
and claims is an integer well inside the exactly-representable double
range. NaN-or-undefined propagation through numeric comparison is
modelled by `Option Int`, with `none` standing for NaN/undefined.
-/

namespace Methanal

/-- A JavaScript value, as far as the predicate engine observes one. -/
inductive JSValue where
  | null
  | undef
  | bool (b : Bool)
  | num (n : Int)
  | str (s : String)
  | arr (elems : List JSValue)

/-- JavaScript truthiness (`!!value`): `null`, `undefined`, `false`, `0`
and the empty string are falsy; objects (arrays) are always truthy. -/
def truthy : JSValue → Bool
  | .null => false
  | .undef => false
  | .bool b => b
  | .num n => n != 0
  | .str s => s != ""
  | .arr _ => true

/-- JavaScript loose inequality against null (`value != null`): false
exactly for `null` and `undefined`. -/
def looseNeqNull : JSValue → Bool
  | .null => false
  | .undef => false
  | _ => true

/-- The `length` property: defined for strings and arrays, `undefined`
(here `none`) for every other value in the model. -/
def jsLength : JSValue → Option Nat
  | .str s => some s.length
  | .arr xs => some xs.length
  | _ => none

/-- JS `>=` where `none` stands for undefined/NaN: any comparison
involving NaN is false. -/
def jsGE : Option Int → Option Int → Bool
  | some x, some y => decide (x ≥ y)
  | _, _ => false

/-- JS `>` where `none` stands for undefined/NaN: any comparison
involving NaN is false. -/
def jsGT : Option Int → Option Int → Bool
  | some x, some y => decide (x > y)
  | _, _ => false

/-- Decimal digits to a natural number, left to right; `none` if any
character is not a digit. -/
def digitsAux : List Char → Nat → Option Nat
  | [], acc => some acc
  | c :: cs, acc =>
      if c.isDigit then digitsAux cs (acc * 10 + (c.toNat - 48)) else none

/-- All-digit character list to a natural number; the empty list is not a
number. -/
def digitsToNat : List Char → Option Nat
  | [] => none
  | cs => digitsAux cs 0

/-- JS `Number(string)` restricted to this model's value space: the
trimmed empty string is 0, an optionally signed run of decimal digits is
its value, anything else is NaN (`none`). -/
def parseDecInt (s : String) : Option Int :=
  match s.trim.toList with
  | [] => some 0
  | '-' :: cs => (digitsToNat cs).map (fun n => -(n : Int))
  | '+' :: cs => (digitsToNat cs).map (fun n => (n : Int))
  | cs => (digitsToNat cs).map (fun n => (n : Int))

mutual

/-- JS `String(value)` over the model: arrays stringify by joining their
elements with commas, `null` and `undefined` elements joining as the
empty string. -/
def jsToString : JSValue → String
  | .null => "null"
  | .undef => "undefined"
  | .bool b => if b then "true" else "false"
  | .num n => toString n
  | .str s => s
  | .arr xs => arrJoin xs

/-- `Array.prototype.join` with the default comma separator. -/
def arrJoin : List JSValue → String
  | [] => ""
  | v :: vs =>
      let head :=
        match v with
        | .null => ""
        | .undef => ""
        | _ => jsToString v
      match vs with
      | [] => head
      | _ => head ++ "," ++ arrJoin vs

end

/-- JS `ToNumber`: `null` is 0, `undefined` is NaN, booleans are 0/1,
strings parse as decimal, arrays convert through their string form. -/
def toNumber : JSValue → Option Int
  | .null => some 0
  | .undef => none
  | .bool b => some (if b then 1 else 0)
  | .num n => some n
  | .str s => parseDecInt s
  | .arr xs => parseDecInt (arrJoin xs)

/-- JS `ToUint32`, the 32-bit representation used by the bitwise
operators; NaN converts to 0. -/
def toUint32 (v : JSValue) : Nat :=
  match toNumber v with
  | none => 0
  | some n => (n % 4294967296).toNat

/-- Modelled from the spec: `Methanal.Util.reduce`, the fold primitive,
is not under src/ (only its unit test is). Spec glossary: "Fold (reduce):
left-to-right accumulation of a sequence using a binary operation,
optionally seeded; unseeded fold over an empty sequence is an error."
This is the unseeded form the logical combinators use: the first element
seeds the accumulator, and the empty sequence is the error case
(`test_reduce` checks `reduce(add, [])` throws and `reduce(add, [10])`
is `10`). -/
def reduce (f : α → α → α) (values : List α) : Except String α :=
  match values with
  | [] => Except.error "reduce() of empty sequence with no initial value"
  | x :: xs => Except.ok (xs.foldl f x)

/-- `Methanal.Preds.combine(c, fs)`: the returned closure loops over
`fs`, pushing `fs[i].apply(null, arguments)` onto an array `vs`, and
returns `c(vs)`. The whole JS argument list is one parameter `args`. -/
def combine {α β γ : Type} (c : List β → γ) (fs : List (α → β)) : α → γ :=
  fun args => c (fs.foldl (fun vs f => vs ++ [f args]) [])

/-- The binary operation `_and` of `Methanal.Preds.AND`:
`function _and(a, b) (return a && b)`. JS `&&` returns the first operand
when it is falsy, otherwise the second. -/
def jsAnd (a b : JSValue) : JSValue :=
  if truthy a then b else a

/-- The binary operation `_or` of `Methanal.Preds.OR`:
`function _or(a, b) (return a || b)`. JS `||` returns the first operand
when it is truthy, otherwise the second. -/
def jsOr (a b : JSValue) : JSValue :=
  if truthy a then a else b

/-- The binary operation `_xor` of `Methanal.Preds.XOR`:
`function _xor(a, b) (return !!(a ^ b))`. `a ^ b` is bitwise XOR on the
32-bit representations; `!!` tests the result nonzero, which does not
depend on the signed/unsigned reading of the 32 bits. -/
def jsXor (a b : JSValue) : JSValue :=
  JSValue.bool (Nat.xor (toUint32 a) (toUint32 b) != 0)

/-- `Methanal.Preds.AND(values)`: `reduce(_and, values)`. -/
def AND (values : List JSValue) : Except String JSValue :=
  reduce jsAnd values

/-- `Methanal.Preds.OR(values)`: `reduce(_or, values)`. -/
def OR (values : List JSValue) : Except String JSValue :=
  reduce jsOr values

/-- `Methanal.Preds.XOR(values)`: `reduce(_xor, values)`. -/
def XOR (values : List JSValue) : Except String JSValue :=
  reduce jsXor values

/-- `Methanal.Preds.invert(p)`: a closure that returns
`!p.apply(null, arguments)`, the boolean negation of `p`'s result's
truthiness. -/
def invert (p : α → JSValue) : α → JSValue :=
  fun args => JSValue.bool (!(truthy (p args)))

/-- `Methanal.Preds.notNull(value)`: `value !== null`, strict inequality
against `null` (so `undefined` passes). -/
def notNull : JSValue → Bool
  | .null => false
  | _ => true

/-- `Methanal.Preds.between(a, b, value)`: `value >= a && value <= b`. -/
def between (a b value : Int) : Bool :=
  decide (value ≥ a) && decide (value ≤ b)

/-- `Methanal.Preds.lengthAtLeast(n, value)`:
`value != null && value.length >= n`; `value.length` is `undefined` for
values without the property, and `undefined >= n` is false. -/
def lengthAtLeast (n : Int) (value : JSValue) : Bool :=
  looseNeqNull value &&
    jsGE (Option.map (fun len => (len : Int)) (jsLength value)) (some n)

/-- Modelled from the spec: `Methanal.Util.TimeDelta` is not under src/
(only its unit test `test_timedelta` is, which pins the result as a
primitive number via `assertIdentical`). Spec: "Constructed from a
structured unit breakdown: recognized keys days, hours, minutes,
seconds, milliseconds (any subset, each signed; omitted keys default to
0). Value = weighted sum: days x 86400000 + hours x 3600000 + minutes x
60000 + seconds x 1000 + milliseconds, all added algebraically." An
omitted key is `none`. -/
def TimeDelta (days hours minutes seconds milliseconds : Option Int) : Int :=
  days.getD 0 * 86400000 + hours.getD 0 * 3600000 + minutes.getD 0 * 60000 +
    seconds.getD 0 * 1000 + milliseconds.getD 0

/-- Modelled from the spec: `Methanal.Util.Time` is not under src/. Spec:
an immutable value wrapping `timestampMillis` (signed integer
milliseconds since the epoch) plus the date-only flag. -/
structure Time where
  timestampMillis : Int
  isDateOnly : Bool

/-- Modelled from the spec: "`offset(delta)`. Returns a new `Time` whose
timestamp is `self.timestampMillis + delta`; preserves the date-only
flag." -/
def Time.offset (self : Time) (delta : Int) : Time :=
  Time.mk (self.timestampMillis + delta) self.isDateOnly

/-- Modelled from the spec: "`asDate()`: a native date representation of
the same instant." A native `Date` is modelled by its millisecond
timestamp, which is what the relational operators reduce it to. -/
def Time.asDate (self : Time) : Int :=
  self.timestampMillis

/-- A value passed to `dateSince` or `futureDate`: the source documents
`value` as a native `Date` or a `Number`. A `Date` is modelled by its
millisecond timestamp. -/
inductive DateValue where
  | date (ts : Int)
  | num (n : Int)

/-- The millisecond number a `DateValue` presents to the relational
operators (`ToPrimitive` with number hint): a `Date` yields its
timestamp, a number yields itself. -/
def DateValue.toTs : DateValue → Int
  | .date ts => ts
  | .num n => n

/-- The `value instanceof Date` test. -/
def DateValue.isDate : DateValue → Bool
  | .date _ => true
  | .num _ => false

/-- JS truthiness of a `DateValue`: a `Date` object is always truthy, a
number is truthy unless zero. -/
def DateValue.dtruthy : DateValue → Bool
  | .date _ => true
  | .num n => n != 0

/-- The property access `timedelta.offset` in the source of `dateSince`:
`timedelta` is a primitive number (per `test_timedelta`, `TimeDelta` is
identical to its millisecond value), and a primitive number has no
`offset` property, so the access yields `undefined`. -/
def numOffsetProp (_ : Int) : Option Int :=
  none

/-- `Methanal.Preds.dateSince(timedelta, start, value)`:
`var t = start.offset(timedelta).asDate();` then
`if (value && !(value instanceof Date)) value = new Date(value);` and
finally `return timedelta.offset > 0 ? value > t : value < t;`.
Comparing a `Date` or number against the `Date` `t` compares their
millisecond numbers. -/
def dateSince (timedelta : Int) (start : Time) (value : DateValue) : Bool :=
  let t : Int := (start.offset timedelta).asDate
  let value :=
    if value.dtruthy && !value.isDate then DateValue.date value.toTs else value
  if jsGT (numOffsetProp timedelta) (some 0) then decide (value.toTs > t)
  else decide (value.toTs < t)

/-- `Methanal.Preds.futureDate(value)`: `(new Date()) <= value`. The
current instant is an explicit parameter `now`, the millisecond
timestamp of `new Date()` read at the call. -/
def futureDate (now : Int) (value : DateValue) : JSValue :=
  JSValue.bool (decide (now ≤ value.toTs))

/-- `Methanal.Preds.pastDate = Methanal.Preds.invert(Methanal.Preds.futureDate)`;
the clock instant read inside `futureDate` during the call is the
parameter `now`. -/
def pastDate (now : Int) : DateValue → JSValue :=
  invert (futureDate now)

theorem foldl_push_eq_map {α β : Type} (fs : List (α → β)) (args : α) :
    ∀ acc : List β,
      fs.foldl (fun vs f => vs ++ [f args]) acc = acc ++ fs.map (fun f => f args) := by
  induction fs with
  | nil => intro acc; simp
  | cons f rest ih => intro acc; simp [List.foldl_cons, ih]

theorem jsAnd_bool (a c : Bool) :
    jsAnd (JSValue.bool a) (JSValue.bool c) = JSValue.bool (a && c) := by
  cases a <;> rfl

theorem jsOr_bool (a c : Bool) :
    jsOr (JSValue.bool a) (JSValue.bool c) = JSValue.bool (a || c) := by
  cases a <;> rfl

theorem jsXor_bool (a c : Bool) :
    jsXor (JSValue.bool a) (JSValue.bool c) = JSValue.bool (Bool.xor a c) := by
  cases a <;> cases c <;> rfl

theorem foldl_jsAnd_bool (bs : List Bool) :
    ∀ a : Bool,
      (bs.map JSValue.bool).foldl jsAnd (JSValue.bool a) =
        JSValue.bool (bs.foldl (fun x y => x && y) a) := by
  induction bs with
  | nil => intro a; rfl
  | cons b rest ih => intro a; simp [List.foldl_cons, jsAnd_bool, ih]

theorem foldl_jsOr_bool (bs : List Bool) :
    ∀ a : Bool,
      (bs.map JSValue.bool).foldl jsOr (JSValue.bool a) =
        JSValue.bool (bs.foldl (fun x y => x || y) a) := by
  induction bs with
  | nil => intro a; rfl
  | cons b rest ih => intro a; simp [List.foldl_cons, jsOr_bool, ih]

theorem foldl_jsXor_bool (bs : List Bool) :
    ∀ a : Bool,
      (bs.map JSValue.bool).foldl jsXor (JSValue.bool a) =
        JSValue.bool (bs.foldl (fun x y => Bool.xor x y) a) := by
  induction bs with
  | nil => intro a; rfl
  | cons b rest ih => intro a; simp [List.foldl_cons, jsXor_bool, ih]

/-- Claim C2: for every combining function `c`, list of functions `fs`
and argument list `args`, `combine(c, fs)` invoked with `args` applies
each function in `fs` to the same argument list `args`, collects the
results into a list in the order of `fs`, and returns `c` applied to
that list. -/
theorem combine_gathers_and_combines {α β γ : Type} (c : List β → γ)
    (fs : List (α → β)) (args : α) :
    combine c fs args = c (fs.map (fun f => f args)) := by
  simp [combine, foldl_push_eq_map]

/-- Claim C3: `AND([])`, `OR([])` and `XOR([])` each produce exactly the
unseeded-fold error of the underlying `reduce` primitive, untranslated:
each equals `reduce` of its binary operation over the empty list, which
is the fold primitive's own error value. -/
theorem AND_OR_XOR_empty_is_fold_error :
    AND [] = reduce jsAnd [] ∧ OR [] = reduce jsOr [] ∧ XOR [] = reduce jsXor [] ∧
    AND [] = Except.error "reduce() of empty sequence with no initial value" ∧
    OR [] = Except.error "reduce() of empty sequence with no initial value" ∧
    XOR [] = Except.error "reduce() of empty sequence with no initial value" :=
  ⟨rfl, rfl, rfl, rfl, rfl, rfl⟩

/-- Claim C4: on every non-empty list of booleans, `AND` left-folds with
conjunction, `OR` with disjunction and `XOR` with exclusive-or, with no
seed; in particular `AND([true, true, false]) = false`,
`OR([false, false, true]) = true`, `XOR([true, false]) = true` and
`XOR([true, true]) = false`. -/
theorem AND_OR_XOR_leftfold_unseeded :
    (∀ (b : Bool) (bs : List Bool),
        AND (List.map JSValue.bool (b :: bs)) =
          Except.ok (JSValue.bool (bs.foldl (fun x y => x && y) b)) ∧
        OR (List.map JSValue.bool (b :: bs)) =
          Except.ok (JSValue.bool (bs.foldl (fun x y => x || y) b)) ∧
        XOR (List.map JSValue.bool (b :: bs)) =
          Except.ok (JSValue.bool (bs.foldl (fun x y => Bool.xor x y) b))) ∧
    AND [JSValue.bool true, JSValue.bool true, JSValue.bool false] =
      Except.ok (JSValue.bool false) ∧
    OR [JSValue.bool false, JSValue.bool false, JSValue.bool true] =
      Except.ok (JSValue.bool true) ∧
    XOR [JSValue.bool true, JSValue.bool false] = Except.ok (JSValue.bool true) ∧
    XOR [JSValue.bool true, JSValue.bool true] = Except.ok (JSValue.bool false) := by
  refine ⟨fun b bs => ⟨?_, ?_, ?_⟩, rfl, rfl, rfl, rfl⟩
  · simp [AND, reduce, foldl_jsAnd_bool]
  · simp [OR, reduce, foldl_jsOr_bool]
  · simp [XOR, reduce, foldl_jsXor_bool]

/-- Claim C9: for every single-element list `[x]`, including non-boolean
`x`, `AND([x])`, `OR([x])` and `XOR([x])` each return `x` itself
unchanged; more generally the unseeded fold returns the sole element
without applying the combining operation, whatever that operation is. -/
theorem AND_OR_XOR_singleton_identity (x : JSValue) :
    AND [x] = Except.ok x ∧ OR [x] = Except.ok x ∧ XOR [x] = Except.ok x ∧
    (∀ f : JSValue → JSValue → JSValue, reduce f [x] = Except.ok x) :=
  ⟨rfl, rfl, rfl, fun _ => rfl⟩

/-- Claim C6: `between(a, b, value)` is true exactly when
`a ≤ value ≤ b`, both bounds inclusive; in particular `between(1,10,1)`
and `between(1,10,10)` are true while `between(1,10,0)` and
`between(1,10,11)` are false. -/
theorem between_iff_inclusive :
    (∀ a b value : Int, between a b value = true ↔ a ≤ value ∧ value ≤ b) ∧
    between 1 10 1 = true ∧ between 1 10 10 = true ∧
    between 1 10 0 = false ∧ between 1 10 11 = false := by
  refine ⟨fun a b value => ?_, rfl, rfl, rfl, rfl⟩
  simp [between, ge_iff_le]

/-- Claim C7: `notNull(value)` is false exactly when `value` is strictly
`null`; in particular `notNull(undefined)` is true. -/
theorem notNull_false_iff_null :
    (∀ v : JSValue, notNull v = false ↔ v = JSValue.null) ∧
    notNull JSValue.undef = true := by
  refine ⟨fun v => ?_, rfl⟩
  cases v <;> simp [notNull]

/-- Claim C8: `lengthAtLeast(n, value)` is true exactly when `value` is
neither `null` nor `undefined` and has a `length` of at least `n`; in
particular `lengthAtLeast(2, [1,2])` is true, `lengthAtLeast(2, [1])` is
false and `lengthAtLeast(2, null)` is false. -/
theorem lengthAtLeast_iff :
    (∀ (n : Int) (v : JSValue),
        lengthAtLeast n v = true ↔
          v ≠ JSValue.null ∧ v ≠ JSValue.undef ∧
            ∃ len : Nat, jsLength v = some len ∧ n ≤ (len : Int)) ∧
    lengthAtLeast 2 (JSValue.arr [JSValue.num 1, JSValue.num 2]) = true ∧
    lengthAtLeast 2 (JSValue.arr [JSValue.num 1]) = false ∧
    lengthAtLeast 2 JSValue.null = false := by
  refine ⟨fun n v => ?_, rfl, rfl, rfl⟩
  cases v <;> simp [lengthAtLeast, looseNeqNull, jsLength, jsGE, ge_iff_le]

/-- Claim C5: for every unit breakdown over days, hours, minutes,
seconds and milliseconds (any subset, each signed, omitted keys
defaulting to 0), `TimeDelta` equals the exact weighted millisecond sum
`days*86400000 + hours*3600000 + minutes*60000 + seconds*1000 +
milliseconds`; the concrete cases are those of `test_timedelta`. -/
theorem TimeDelta_weighted_millisecond_sum :
    (∀ d h m s ms : Int,
        TimeDelta (some d) (some h) (some m) (some s) (some ms) =
          d * 86400000 + h * 3600000 + m * 60000 + s * 1000 + ms) ∧
    (∀ d : Int, TimeDelta (some d) none none none none = d * 86400000) ∧
    (∀ ms : Int, TimeDelta none none none none (some ms) = ms) ∧
    TimeDelta (some 1) none none none none = 1000 * 3600 * 24 ∧
    TimeDelta (some (-1)) none none none none = 1000 * 3600 * (-24) ∧
    TimeDelta (some 1) (some 2) none none none = 1000 * 3600 * 26 ∧
    TimeDelta (some 1) (some 2) (some 3) none none = 1000 * (3600 * 26 + 60 * 3) ∧
    TimeDelta (some 1) (some 2) (some 3) (some 4) none =
      1000 * (3600 * 26 + 60 * 3 + 4) ∧
    TimeDelta (some 1) (some 2) (some 3) (some 4) (some 5) =
      1000 * (3600 * 26 + 60 * 3 + 4) + 5 := by
  refine ⟨fun d h m s ms => rfl, fun d => ?_, fun ms => ?_, ?_, ?_, ?_, ?_, ?_, ?_⟩
  all_goals norm_num [TimeDelta]

/-- Claim C1, evidence: with `timedelta = TimeDelta(days: 1)` (positive
originating days-sign), `start` at the epoch, and `value` a `Date` one
millisecond strictly after the boundary `start.offset(timedelta)`,
`dateSince` returns `false`, although the claim says a positive-sign
delta returns `value > boundary`, which is true here: `timedelta` is a
primitive number, so `timedelta.offset` is `undefined` and the code
always takes the `value < boundary` branch. -/
theorem dateSince_positive_delta_failing_input :
    dateSince (TimeDelta (some 1) none none none none) (Time.mk 0 false)
        (DateValue.date 86400001) = false ∧
    DateValue.toTs (DateValue.date 86400001) >
      ((Time.mk 0 false).offset (TimeDelta (some 1) none none none none)).asDate ∧
    TimeDelta (some 1) none none none none > 0 := by
  refine ⟨rfl, ?_, ?_⟩ <;>
    norm_num [TimeDelta, Time.offset, Time.asDate, DateValue.toTs]

/-- Claim C10: `invert(invert(p))` applied to `args` returns the boolean
coercion of `p(args)`; when `p` always returns a boolean,
`invert(invert(p))` agrees with `p` on every argument; and
`pastDate(value)` is the negation of `futureDate(value)` for every value
(and clock instant). -/
theorem invert_invert_is_boolean_coercion {α : Type} (p : α → JSValue) (args : α) :
    invert (invert p) args = JSValue.bool (truthy (p args)) ∧
    ((∀ a, ∃ b, p a = JSValue.bool b) → invert (invert p) args = p args) ∧
    (∀ (now : Int) (v : DateValue),
        pastDate now v = JSValue.bool (!(truthy (futureDate now v)))) := by
  refine ⟨by simp [invert, truthy], fun h => ?_, fun now v => rfl⟩
  obtain ⟨b, hb⟩ := h args
  simp [invert, hb, truthy]

/-- Witness for claim C10 at the constantly-true predicate over `Unit`. -/
theorem invert_invert_is_boolean_coercion_witness :
    invert (invert (fun _ : Unit => JSValue.bool true)) () =
      (fun _ : Unit => JSValue.bool true) () :=
  (invert_invert_is_boolean_coercion (fun _ : Unit => JSValue.bool true) ()).2.1
    (fun _ => ⟨true, rfl⟩)

end Methanal
